import Mathlib

set_option linter.unusedVariables false

/-!
Shallow embedding of the indoor-positioning-simulator core
(`src/classes/config.py`, `src/classes/simulators/trajectory/dummy.py`,
`src/classes/simulators/trajectory/factory.py`,
`src/classes/simulators/trajectory/daniscemgil2017custom.py`).

Python floats are embedded as exact numbers (ℝ where trigonometry is
involved, ℚ in the purely arithmetic configuration layer), Python ints as
ℤ, Python tuples of numbers as lists or products, Python dicts with a
fixed key set as structures of `Option` fields (`none` = key absent), and
raising `ValueError` as `Except.error` carrying the message string.
Ambient randomness (`random.uniform`, `np.random.normal`) is embedded by
passing the drawn value in as an explicit argument.
-/

/-- A Python dict holding optional numeric keys `x` and `y`
(used for `room_dim_meters` and `initial_position`). -/
structure PyDictXY where
  x : Option ℚ
  y : Option ℚ
  deriving DecidableEq

/-- CPython's `random.uniform(a, b)` is `a + (b - a) * random()` where
`random()` draws from `[0, 1)`; the raw draw `r` is passed explicitly. -/
def random_uniform (a b r : ℚ) : ℚ :=
  a + (b - a) * r

/-- `classes/simulators/trajectory/dummy.py`: stateless placeholder model. -/
structure DummyPositionModule

/-- `DummyPositionModule.calculate_position`: ignores every kinematic input
and returns the Python 2-tuple
`(random.uniform(min_x, max_x), random.uniform(min_y, max_y))`,
embedded as a list of its components; `r1`, `r2` are the raw
`random()` draws behind the two `random.uniform` calls. -/
def DummyPositionModule.calculate_position (self : DummyPositionModule)
    (current_time milliseconds_per_iteration : ℤ)
    (last_angle last_x last_y min_x max_x min_y max_y speed : ℚ)
    (r1 r2 : ℚ) : List ℚ :=
  [random_uniform min_x max_x r1, random_uniform min_y max_y r2]

/-- `classes/simulators/trajectory/daniscemgil2017custom.py`: the
correlated-random-walk model with boundary avoidance and angle hold.
Fields mirror the attributes set in `__init__`. -/
structure DanisCemgil2017Custom where
  s : ℚ
  outbounds_ration : ℝ
  keep_angle_ms : ℚ
  _last_angle_change_time : ℤ

/-- `DanisCemgil2017Custom.__init__(keep_angle_ms, s)`:
sets `outbounds_ration = π/8` and the timer to `0`. -/
noncomputable def DanisCemgil2017Custom.init (keep_angle_ms s : ℚ) :
    DanisCemgil2017Custom :=
  ⟨s, Real.pi / 8, keep_angle_ms, 0⟩

/-- `DanisCemgil2017Custom.calculate_position`.  The mutation of
`self._last_angle_change_time` is embedded by returning the updated
instance next to the returned `(x, y, angle)` triple; `normal_draw` is
the value of the `np.random.normal(0, self.s)` call (consumed only in
the branch that makes it). -/
noncomputable def DanisCemgil2017Custom.calculate_position
    (self : DanisCemgil2017Custom)
    (current_time milliseconds_per_iteration : ℤ)
    (last_angle last_x last_y min_x max_x min_y max_y speed : ℝ)
    (normal_draw : ℝ) : (ℝ × ℝ × ℝ) × DanisCemgil2017Custom :=
  let x := last_x
  let y := last_y
  let step :=
    if x < min_x ∨ x > max_x ∨ y < min_y ∨ y > max_y then
      (self.outbounds_ration,
        (⟨self.s, self.outbounds_ration, self.keep_angle_ms, current_time⟩ :
          DanisCemgil2017Custom))
    else if ((current_time - self._last_angle_change_time : ℤ) : ℚ) >
        self.keep_angle_ms then
      (normal_draw,
        (⟨self.s, self.outbounds_ration, self.keep_angle_ms, current_time⟩ :
          DanisCemgil2017Custom))
    else
      ((0 : ℝ), self)
  let delta_angle := step.1
  let angle := last_angle + delta_angle
  let delta_l := speed * (milliseconds_per_iteration : ℝ) / 1000
  ((x + delta_l * Real.cos angle, y + delta_l * Real.sin angle, angle), step.2)

/-- The returned Python tuple of `DanisCemgil2017Custom.calculate_position`,
as a list of its components (for arity comparisons). -/
noncomputable def DanisCemgil2017Custom.calculate_position_tuple
    (self : DanisCemgil2017Custom)
    (current_time milliseconds_per_iteration : ℤ)
    (last_angle last_x last_y min_x max_x min_y max_y speed : ℝ)
    (normal_draw : ℝ) : List ℝ :=
  let r := (self.calculate_position current_time milliseconds_per_iteration
    last_angle last_x last_y min_x max_x min_y max_y speed normal_draw).1
  [r.1, r.2.1, r.2.2]

/-- N sequential `calculate_position` calls against the same instance, the
way the (out-of-scope) driver makes them: each call feeds the returned
position/angle and the mutated instance into the next.  `calls` lists, per
call, the `current_time` passed in and the normal draw consumed. -/
noncomputable def DanisCemgil2017Custom.run (self : DanisCemgil2017Custom)
    (milliseconds_per_iteration : ℤ)
    (min_x max_x min_y max_y speed : ℝ)
    (x y angle : ℝ) (calls : List (ℤ × ℝ)) : List (ℝ × ℝ × ℝ) :=
  match calls with
  | [] => []
  | (t, draw) :: rest =>
    let r := self.calculate_position t milliseconds_per_iteration
      angle x y min_x max_x min_y max_y speed draw
    r.1 :: r.2.run milliseconds_per_iteration min_x max_x min_y max_y speed
      r.1.1 r.1.2.1 r.1.2.2 rest

/-- The nested `simulators` section of the configuration dictionary.
Module-parameter sub-dicts are embedded as association lists
(module name ↦ list of scalar keyword parameters). -/
structure SimulatorsDict where
  trajectory : Option String
  trajectory_parameters : Option (List (String × List (String × ℚ)))
  rssi : Option String
  rssi_parameters : Option (List (String × List (String × ℚ)))
  deriving DecidableEq

/-- The raw configuration dictionary handed to `Config` (already parsed
from JSON by the out-of-scope loader); `none` marks an absent key. -/
structure ConfigDict where
  simulation_duration_seconds : Option ℤ
  room_dim_meters : Option PyDictXY
  margin_meters : Option ℚ
  initial_position : Option PyDictXY
  speed_meters_second : Option ℚ
  initial_angle_degrees : Option ℚ
  output_trajectory : Option Bool
  simulators : Option SimulatorsDict
  deriving DecidableEq

/-- The attributes stored on a `Config` instance after
`_extract_config_parameters` has run. -/
structure Config where
  simulation_duration_seconds : ℤ
  room_dim_meters : Option PyDictXY
  margin_meters : ℚ
  initial_position : PyDictXY
  speed_meters_second : ℚ
  initial_angle_degrees : ℚ
  output_trajectory : Bool
  trajectory_simulator_module : String
  trajectory_simulator_parameters : List (String × List (String × ℚ))
  trajectory_simulator_module_parameters : List (String × ℚ)
  rssi_simulator_module : String
  rssi_simulator_parameters : List (String × List (String × ℚ))
  rssi_simulator_module_parameters : List (String × ℚ)
  deriving DecidableEq

/-- `Config._extract_config_parameters`: fills defaults with `dict.get`.
`angle_draw` is the value of the `np.random.uniform(0, 360)` call used as
the default for `initial_angle_degrees`. -/
def Config.extract_config_parameters (config : ConfigDict) (angle_draw : ℚ) :
    Config :=
  let simulators := config.simulators.getD ⟨none, none, none, none⟩
  let trajectory_simulator_module := simulators.trajectory.getD ""
  let trajectory_simulator_parameters :=
    simulators.trajectory_parameters.getD []
  let rssi_simulator_module := simulators.rssi.getD ""
  let rssi_simulator_parameters := simulators.rssi_parameters.getD []
  { simulation_duration_seconds :=
      config.simulation_duration_seconds.getD 60
    room_dim_meters := config.room_dim_meters
    margin_meters := config.margin_meters.getD 0
    initial_position := config.initial_position.getD ⟨some 0, some 0⟩
    speed_meters_second := config.speed_meters_second.getD 0.5
    initial_angle_degrees := config.initial_angle_degrees.getD angle_draw
    output_trajectory := config.output_trajectory.getD true
    trajectory_simulator_module := trajectory_simulator_module
    trajectory_simulator_parameters := trajectory_simulator_parameters
    trajectory_simulator_module_parameters :=
      (trajectory_simulator_parameters.lookup
        trajectory_simulator_module).getD []
    rssi_simulator_module := rssi_simulator_module
    rssi_simulator_parameters := rssi_simulator_parameters
    rssi_simulator_module_parameters :=
      (rssi_simulator_parameters.lookup rssi_simulator_module).getD [] }

/-- `Config._validate_config`: the sequence of fail-fast checks; the first
violated check's `ValueError` message is surfaced. -/
def Config.validate_config (c : Config) : Except String Unit :=
  if c.simulation_duration_seconds ≤ 0 then
    Except.error "Simulation duration must be greater than 0."
  else if c.room_dim_meters = none then
    Except.error "Room dimensions must be provided."
  else if (c.room_dim_meters.getD ⟨none, none⟩).x = none ∨
      (c.room_dim_meters.getD ⟨none, none⟩).y = none then
    Except.error "Room dimensions must include 'x' and 'y' indices."
  else if (c.room_dim_meters.getD ⟨none, none⟩).x.getD 0 ≤ 0 ∨
      (c.room_dim_meters.getD ⟨none, none⟩).y.getD 0 ≤ 0 then
    Except.error "Room dimensions must be greater than 0."
  else if c.margin_meters < 0 then
    Except.error "Margin must be greater or equal to 0."
  else if c.initial_position.x = none ∨ c.initial_position.y = none then
    Except.error "Initial position must include 'x' and 'y' indices."
  else if c.initial_position.x.getD 0 < 0 ∨
      c.initial_position.y.getD 0 < 0 then
    Except.error "Initial position must be greater or equal to 0."
  else if c.speed_meters_second ≤ 0 then
    Except.error "Speed must be greater than 0."
  else if c.initial_angle_degrees < 0 ∨ 360 ≤ c.initial_angle_degrees then
    Except.error "Initial angle must be between 0 and 360 degrees."
  else if c.trajectory_simulator_module = "" then
    Except.error "Trajectory simulator module must be provided."
  else if c.rssi_simulator_module = "" then
    Except.error "RSSI simulator module must be provided."
  else if c.initial_position.x.getD 0 < c.margin_meters ∨
      c.initial_position.x.getD 0 >
        (c.room_dim_meters.getD ⟨none, none⟩).x.getD 0 - c.margin_meters then
    Except.error "Initial x position is out of bounds."
  else if c.initial_position.y.getD 0 < c.margin_meters ∨
      c.initial_position.y.getD 0 >
        (c.room_dim_meters.getD ⟨none, none⟩).y.getD 0 - c.margin_meters then
    Except.error "Initial y position is out of bounds."
  else
    Except.ok ()

/-- `Config.__init__` after the file has been loaded: extract the
parameters, then validate; a raised `ValueError` is the `error` case. -/
def Config.construct (config : ConfigDict) (angle_draw : ℚ) :
    Except String Config :=
  let c := Config.extract_config_parameters config angle_draw
  (Config.validate_config c).map fun _ => c

/-- `true` iff no exception was raised. -/
def exceptOk {ε α : Type} : Except ε α → Bool
  | Except.ok _ => true
  | Except.error _ => false

/-- Keyword-argument binding for `DummyPositionModule(**constructor_params)`:
the class declares no `__init__`, so any keyword argument raises
`TypeError`. -/
def DummyPositionModule.init_kwargs
    (constructor_params : List (String × ℚ)) :
    Except String DummyPositionModule :=
  match constructor_params with
  | [] => Except.ok ⟨⟩
  | (k, _) :: _ =>
    Except.error ("TypeError: unexpected keyword argument " ++ k)

/-- Modelled from the spec: the module
`classes/simulators/trajectory/daniscemgil2017.py` is imported by the
factory's `daniscemgil2017` branch but is not under src/; the spec (§4.4,
§4.5) describes it only as the canonical non-custom variant of the
correlated random walk, so we model just a constructor holding the noise
standard deviation. -/
structure DanisCemgil2017 where
  s : ℚ

/-- Modelled from the spec: keyword-argument binding for
`DanisCemgil2017(**constructor_params)` of the absent module; accepts the
noise parameter and rejects unknown keywords. -/
def DanisCemgil2017.init_kwargs (constructor_params : List (String × ℚ)) :
    Except String DanisCemgil2017 :=
  if constructor_params.all fun kv => kv.1 == "s" then
    Except.ok ⟨(constructor_params.lookup "s").getD 0.07⟩
  else
    Except.error "TypeError: unexpected keyword argument"

/-- Keyword-argument binding for `DanisCemgil2017Custom(**constructor_params)`
with defaults `keep_angle_ms = 300`, `s = 0.07`. -/
noncomputable def DanisCemgil2017Custom.init_kwargs
    (constructor_params : List (String × ℚ)) :
    Except String DanisCemgil2017Custom :=
  if constructor_params.all fun kv => kv.1 == "keep_angle_ms" || kv.1 == "s"
  then
    Except.ok (DanisCemgil2017Custom.init
      ((constructor_params.lookup "keep_angle_ms").getD 300)
      ((constructor_params.lookup "s").getD 0.07))
  else
    Except.error "TypeError: unexpected keyword argument"

/-- The possible results of the factory, tagged by concrete model class. -/
inductive TrajectorySimulator where
  | dummy : DummyPositionModule → TrajectorySimulator
  | daniscemgil2017 : DanisCemgil2017 → TrajectorySimulator
  | daniscemgil2017custom : DanisCemgil2017Custom → TrajectorySimulator

/-- `TrajectoryFactory.create_trajectory_simulator` from
`classes/simulators/trajectory/factory.py`. -/
noncomputable def TrajectoryFactory.create_trajectory_simulator
    (simulator_name : String) (constructor_params : List (String × ℚ)) :
    Except String TrajectorySimulator :=
  if simulator_name = "dummy" then
    (DummyPositionModule.init_kwargs constructor_params).map
      TrajectorySimulator.dummy
  else if simulator_name = "daniscemgil2017" then
    (DanisCemgil2017.init_kwargs constructor_params).map
      TrajectorySimulator.daniscemgil2017
  else if simulator_name = "daniscemgil2017custom" then
    (DanisCemgil2017Custom.init_kwargs constructor_params).map
      TrajectorySimulator.daniscemgil2017custom
  else
    Except.error ("Trajectory simulator " ++ simulator_name ++
      " not available.")

/-- C1: whenever the input position lies outside
`[min_x,max_x]×[min_y,max_y]` on either axis, the angle change applied by
`DanisCemgil2017Custom.calculate_position` is exactly `π/8` — never the
normal draw, whatever the configured noise standard deviation `s` — and
`_last_angle_change_time` is set to `current_time` on that call.
(`__init__` always sets `outbounds_ration = π/8`, the hypothesis `hpi`.) -/
theorem crw_out_of_bounds_correction
    (m : DanisCemgil2017Custom)
    (current_time milliseconds_per_iteration : ℤ)
    (last_angle last_x last_y min_x max_x min_y max_y speed normal_draw : ℝ)
    (hpi : m.outbounds_ration = Real.pi / 8)
    (hout : last_x < min_x ∨ last_x > max_x ∨ last_y < min_y ∨
      last_y > max_y) :
    (m.calculate_position current_time milliseconds_per_iteration last_angle
      last_x last_y min_x max_x min_y max_y speed normal_draw).1.2.2 =
        last_angle + Real.pi / 8 ∧
    (m.calculate_position current_time milliseconds_per_iteration last_angle
      last_x last_y min_x max_x min_y max_y speed
      normal_draw).2._last_angle_change_time = current_time := by
  simp only [DanisCemgil2017Custom.calculate_position]
  rw [if_pos hout]
  exact ⟨by rw [hpi], rfl⟩

/-- Witness for C1 at a concrete out-of-bounds call. -/
theorem crw_out_of_bounds_correction_witness :
    ((-1 : ℝ) < 0 ∨ (-1 : ℝ) > 10 ∨ (3 : ℝ) < 0 ∨ (3 : ℝ) > 10) ∧
    (((DanisCemgil2017Custom.init 300 0.07).calculate_position 500 100
      0 (-1) 3 0 10 0 10 1 2).1.2.2 = 0 + Real.pi / 8 ∧
    ((DanisCemgil2017Custom.init 300 0.07).calculate_position 500 100
      0 (-1) 3 0 10 0 10 1 2).2._last_angle_change_time = 500) :=
  ⟨Or.inl (by norm_num),
    crw_out_of_bounds_correction (DanisCemgil2017Custom.init 300 0.07)
      500 100 0 (-1) 3 0 10 0 10 1 2 rfl (Or.inl (by norm_num))⟩

/-- C2: inside bounds and with `current_time - _last_angle_change_time`
at most `keep_angle_ms`, the call keeps the heading exactly and advances
the position by exactly `speed*milliseconds_per_iteration/1000` along it;
the instance is left unchanged. -/
theorem crw_angle_hold_step
    (m : DanisCemgil2017Custom)
    (current_time milliseconds_per_iteration : ℤ)
    (last_angle last_x last_y min_x max_x min_y max_y speed normal_draw : ℝ)
    (hin : min_x ≤ last_x ∧ last_x ≤ max_x ∧ min_y ≤ last_y ∧
      last_y ≤ max_y)
    (hhold : ((current_time - m._last_angle_change_time : ℤ) : ℚ) ≤
      m.keep_angle_ms) :
    m.calculate_position current_time milliseconds_per_iteration last_angle
      last_x last_y min_x max_x min_y max_y speed normal_draw =
    ((last_x + speed * (milliseconds_per_iteration : ℝ) / 1000 *
        Real.cos last_angle,
      last_y + speed * (milliseconds_per_iteration : ℝ) / 1000 *
        Real.sin last_angle,
      last_angle), m) := by
  obtain ⟨h1, h2, h3, h4⟩ := hin
  simp only [DanisCemgil2017Custom.calculate_position]
  rw [if_neg (by push_neg; exact ⟨h1, h2, h3, h4⟩),
    if_neg (not_lt.2 hhold), add_zero]

/-- Witness for C2 at a concrete in-bounds call within the hold period. -/
theorem crw_angle_hold_step_witness :
    ((0 : ℝ) ≤ 2 ∧ (2 : ℝ) ≤ 10 ∧ (0 : ℝ) ≤ 3 ∧ (3 : ℝ) ≤ 10) ∧
    ((((100 : ℤ) - (DanisCemgil2017Custom.init 300
      0.07)._last_angle_change_time : ℤ) : ℚ) ≤
      (DanisCemgil2017Custom.init 300 0.07).keep_angle_ms) ∧
    (DanisCemgil2017Custom.init 300 0.07).calculate_position 100 100
      0 2 3 0 10 0 10 1 2 =
    ((2 + 1 * ((100 : ℤ) : ℝ) / 1000 * Real.cos 0,
      3 + 1 * ((100 : ℤ) : ℝ) / 1000 * Real.sin 0, 0),
      DanisCemgil2017Custom.init 300 0.07) :=
  ⟨⟨by norm_num, by norm_num, by norm_num, by norm_num⟩,
    by norm_num [DanisCemgil2017Custom.init],
    crw_angle_hold_step (DanisCemgil2017Custom.init 300 0.07) 100 100
      0 2 3 0 10 0 10 1 2
      ⟨by norm_num, by norm_num, by norm_num, by norm_num⟩
      (by norm_num [DanisCemgil2017Custom.init])⟩

/-- C3 counterexample: at a concrete call, the dummy model's
`calculate_position` does not return a 3-tuple — its returned tuple has
only 2 components, so there is no angle component. -/
theorem dummy_missing_angle_counterexample :
    (DummyPositionModule.calculate_position ⟨⟩ 0 100 0 1 1 0 10 0 5 1
      (1/2) (1/2)).length ≠ 3 := by
  decide

/-- C3 (amended): the correlated-random-walk model's `calculate_position`
returns the triple `(x, y, angle)`, but the dummy model's returns only
the pair `(x, y)` — a 2-tuple with no angle component. -/
theorem model_return_arity
    (du : DummyPositionModule) (m : DanisCemgil2017Custom)
    (t1 ms1 : ℤ) (a1 x1 y1 minx1 maxx1 miny1 maxy1 sp1 r1 r2 : ℚ)
    (t2 ms2 : ℤ) (a2 x2 y2 minx2 maxx2 miny2 maxy2 sp2 nd : ℝ) :
    (du.calculate_position t1 ms1 a1 x1 y1 minx1 maxx1 miny1 maxy1 sp1
      r1 r2).length = 2 ∧
    (m.calculate_position_tuple t2 ms2 a2 x2 y2 minx2 maxx2 miny2 maxy2 sp2
      nd).length = 3 :=
  ⟨rfl, rfl⟩

/-- C8: with `min_x ≤ max_x` and `min_y ≤ max_y` (and the raw `random()`
draws in `[0,1)` as CPython guarantees), the dummy model's returned `x`
lies in `[min_x, max_x]` and its returned `y` in `[min_y, max_y]`; and the
result does not depend on any kinematic input (time, tick, angle, previous
position, speed). -/
theorem dummy_uniform_in_bounds
    (du : DummyPositionModule)
    (t ms t2 ms2 : ℤ)
    (a x y sp a2 x2 y2 sp2 min_x max_x min_y max_y r1 r2 : ℚ)
    (hx : min_x ≤ max_x) (hy : min_y ≤ max_y)
    (hr1l : 0 ≤ r1) (hr1u : r1 < 1) (hr2l : 0 ≤ r2) (hr2u : r2 < 1) :
    (min_x ≤ (du.calculate_position t ms a x y min_x max_x min_y max_y sp
        r1 r2).getD 0 0 ∧
      (du.calculate_position t ms a x y min_x max_x min_y max_y sp
        r1 r2).getD 0 0 ≤ max_x ∧
      min_y ≤ (du.calculate_position t ms a x y min_x max_x min_y max_y sp
        r1 r2).getD 1 0 ∧
      (du.calculate_position t ms a x y min_x max_x min_y max_y sp
        r1 r2).getD 1 0 ≤ max_y) ∧
    du.calculate_position t2 ms2 a2 x2 y2 min_x max_x min_y max_y sp2
      r1 r2 =
      du.calculate_position t ms a x y min_x max_x min_y max_y sp r1 r2 := by
  refine ⟨?_, rfl⟩
  simp only [DummyPositionModule.calculate_position, random_uniform,
    List.getD_cons_zero, List.getD_cons_succ]
  refine ⟨?_, ?_, ?_, ?_⟩
  · nlinarith [mul_nonneg (sub_nonneg.2 hx) hr1l]
  · nlinarith [mul_le_of_le_one_right (sub_nonneg.2 hx) (le_of_lt hr1u)]
  · nlinarith [mul_nonneg (sub_nonneg.2 hy) hr2l]
  · nlinarith [mul_le_of_le_one_right (sub_nonneg.2 hy) (le_of_lt hr2u)]

/-- Witness for C8 at a concrete call (bounds `[0,10]×[0,5]`, draws
`1/4` and `3/4`, two unrelated kinematic input vectors). -/
theorem dummy_uniform_in_bounds_witness :
    ((0 : ℚ) ≤ 10 ∧ (0 : ℚ) ≤ 5 ∧ (0 : ℚ) ≤ 1/4 ∧ (1/4 : ℚ) < 1 ∧
      (0 : ℚ) ≤ 3/4 ∧ (3/4 : ℚ) < 1) ∧
    ((0 ≤ (DummyPositionModule.calculate_position ⟨⟩ 7 100 2 9 9 0 10 0 5 3
        (1/4) (3/4)).getD 0 0 ∧
      (DummyPositionModule.calculate_position ⟨⟩ 7 100 2 9 9 0 10 0 5 3
        (1/4) (3/4)).getD 0 0 ≤ 10 ∧
      0 ≤ (DummyPositionModule.calculate_position ⟨⟩ 7 100 2 9 9 0 10 0 5 3
        (1/4) (3/4)).getD 1 0 ∧
      (DummyPositionModule.calculate_position ⟨⟩ 7 100 2 9 9 0 10 0 5 3
        (1/4) (3/4)).getD 1 0 ≤ 5) ∧
    DummyPositionModule.calculate_position ⟨⟩ 0 50 0 1 1 0 10 0 5 1
        (1/4) (3/4) =
      DummyPositionModule.calculate_position ⟨⟩ 7 100 2 9 9 0 10 0 5 3
        (1/4) (3/4)) :=
  ⟨⟨by norm_num, by norm_num, by norm_num, by norm_num, by norm_num,
      by norm_num⟩,
    dummy_uniform_in_bounds ⟨⟩ 7 100 0 50 2 9 9 3 0 1 1 1 0 10 0 5
      (1/4) (3/4) (by norm_num) (by norm_num) (by norm_num) (by norm_num)
      (by norm_num) (by norm_num)⟩

/-- C9: the trajectory of N sequential `calculate_position` calls is a
deterministic function of the initial position, angle and internal model
state and of the per-call `(current_time, normal draw)` sequence: two runs
with equal starting data consuming identical draws produce identical
`(x, y, angle)` sequences. -/
theorem crw_run_deterministic
    (milliseconds_per_iteration : ℤ) (min_x max_x min_y max_y speed : ℝ)
    (m1 m2 : DanisCemgil2017Custom) (x1 y1 a1 x2 y2 a2 : ℝ)
    (l1 l2 : List (ℤ × ℝ))
    (hm : m1 = m2) (hx : x1 = x2) (hy : y1 = y2) (ha : a1 = a2)
    (hl : l1 = l2) :
    m1.run milliseconds_per_iteration min_x max_x min_y max_y speed
      x1 y1 a1 l1 =
    m2.run milliseconds_per_iteration min_x max_x min_y max_y speed
      x2 y2 a2 l2 := by
  subst hm
  subst hx
  subst hy
  subst ha
  subst hl
  rfl

/-- Witness for C9: two concrete two-call runs with identical seeds. -/
theorem crw_run_deterministic_witness :
    DanisCemgil2017Custom.init 300 0.07 = DanisCemgil2017Custom.init 300
      0.07 ∧
    (DanisCemgil2017Custom.init 300 0.07).run 100 0 10 0 10 1 5 5 0
      [(400, 1), (500, 2)] =
    (DanisCemgil2017Custom.init 300 0.07).run 100 0 10 0 10 1 5 5 0
      [(400, 1), (500, 2)] :=
  ⟨rfl, crw_run_deterministic 100 0 10 0 10 1
    (DanisCemgil2017Custom.init 300 0.07)
    (DanisCemgil2017Custom.init 300 0.07) 5 5 0 5 5 0
    [(400, 1), (500, 2)] [(400, 1), (500, 2)] rfl rfl rfl rfl rfl⟩

/-- C10: a `calculate_position` call never mutates `s`,
`outbounds_ration` or `keep_angle_ms`; on the hold branch (position
inside bounds and `current_time - _last_angle_change_time ≤
keep_angle_ms`) the returned instance is the input instance unchanged,
and on every other branch `_last_angle_change_time` is set to
`current_time`. -/
theorem crw_frame_timer_and_fields
    (m : DanisCemgil2017Custom)
    (current_time milliseconds_per_iteration : ℤ)
    (last_angle last_x last_y min_x max_x min_y max_y speed
      normal_draw : ℝ) :
    ((m.calculate_position current_time milliseconds_per_iteration
        last_angle last_x last_y min_x max_x min_y max_y speed
        normal_draw).2.s = m.s ∧
      (m.calculate_position current_time milliseconds_per_iteration
        last_angle last_x last_y min_x max_x min_y max_y speed
        normal_draw).2.outbounds_ration = m.outbounds_ration ∧
      (m.calculate_position current_time milliseconds_per_iteration
        last_angle last_x last_y min_x max_x min_y max_y speed
        normal_draw).2.keep_angle_ms = m.keep_angle_ms) ∧
    (((min_x ≤ last_x ∧ last_x ≤ max_x ∧ min_y ≤ last_y ∧
        last_y ≤ max_y) ∧
      ((current_time - m._last_angle_change_time : ℤ) : ℚ) ≤
        m.keep_angle_ms ∧
      (m.calculate_position current_time milliseconds_per_iteration
        last_angle last_x last_y min_x max_x min_y max_y speed
        normal_draw).2 = m) ∨
    (¬((min_x ≤ last_x ∧ last_x ≤ max_x ∧ min_y ≤ last_y ∧
        last_y ≤ max_y) ∧
      ((current_time - m._last_angle_change_time : ℤ) : ℚ) ≤
        m.keep_angle_ms) ∧
      (m.calculate_position current_time milliseconds_per_iteration
        last_angle last_x last_y min_x max_x min_y max_y speed
        normal_draw).2._last_angle_change_time = current_time)) := by
  by_cases hout : last_x < min_x ∨ last_x > max_x ∨ last_y < min_y ∨
    last_y > max_y
  · simp only [DanisCemgil2017Custom.calculate_position]
    rw [if_pos hout]
    refine ⟨⟨rfl, rfl, rfl⟩, Or.inr ⟨?_, rfl⟩⟩
    rintro ⟨⟨i1, i2, i3, i4⟩, -⟩
    rcases hout with h | h | h | h <;> linarith
  · by_cases hgt : ((current_time - m._last_angle_change_time : ℤ) : ℚ) >
      m.keep_angle_ms
    · simp only [DanisCemgil2017Custom.calculate_position]
      rw [if_neg hout, if_pos hgt]
      refine ⟨⟨rfl, rfl, rfl⟩, Or.inr ⟨?_, rfl⟩⟩
      rintro ⟨-, hh⟩
      exact absurd hh (not_le.2 hgt)
    · simp only [DanisCemgil2017Custom.calculate_position]
      rw [if_neg hout, if_neg hgt]
      push_neg at hout
      exact ⟨⟨rfl, rfl, rfl⟩, Or.inl ⟨hout, not_lt.1 hgt, rfl⟩⟩

/-- A validated configuration satisfies the margin-shrunk playfield
bounds on both axes (read off the success path of `_validate_config`). -/
lemma validate_ok_bounds (c : Config)
    (h : Config.validate_config c = Except.ok ()) :
    c.margin_meters ≤ c.initial_position.x.getD 0 ∧
    c.initial_position.x.getD 0 ≤
      (c.room_dim_meters.getD ⟨none, none⟩).x.getD 0 - c.margin_meters ∧
    c.margin_meters ≤ c.initial_position.y.getD 0 ∧
    c.initial_position.y.getD 0 ≤
      (c.room_dim_meters.getD ⟨none, none⟩).y.getD 0 - c.margin_meters := by
  simp only [Config.validate_config] at h
  by_cases h1 : c.simulation_duration_seconds ≤ 0
  · rw [if_pos h1] at h
    exact Except.noConfusion h
  rw [if_neg h1] at h
  by_cases h2 : c.room_dim_meters = none
  · rw [if_pos h2] at h
    exact Except.noConfusion h
  rw [if_neg h2] at h
  by_cases h3 : (c.room_dim_meters.getD ⟨none, none⟩).x = none ∨
      (c.room_dim_meters.getD ⟨none, none⟩).y = none
  · rw [if_pos h3] at h
    exact Except.noConfusion h
  rw [if_neg h3] at h
  by_cases h4 : (c.room_dim_meters.getD ⟨none, none⟩).x.getD 0 ≤ 0 ∨
      (c.room_dim_meters.getD ⟨none, none⟩).y.getD 0 ≤ 0
  · rw [if_pos h4] at h
    exact Except.noConfusion h
  rw [if_neg h4] at h
  by_cases h5 : c.margin_meters < 0
  · rw [if_pos h5] at h
    exact Except.noConfusion h
  rw [if_neg h5] at h
  by_cases h6 : c.initial_position.x = none ∨ c.initial_position.y = none
  · rw [if_pos h6] at h
    exact Except.noConfusion h
  rw [if_neg h6] at h
  by_cases h7 : c.initial_position.x.getD 0 < 0 ∨
      c.initial_position.y.getD 0 < 0
  · rw [if_pos h7] at h
    exact Except.noConfusion h
  rw [if_neg h7] at h
  by_cases h8 : c.speed_meters_second ≤ 0
  · rw [if_pos h8] at h
    exact Except.noConfusion h
  rw [if_neg h8] at h
  by_cases h9 : c.initial_angle_degrees < 0 ∨ 360 ≤ c.initial_angle_degrees
  · rw [if_pos h9] at h
    exact Except.noConfusion h
  rw [if_neg h9] at h
  by_cases h10 : c.trajectory_simulator_module = ""
  · rw [if_pos h10] at h
    exact Except.noConfusion h
  rw [if_neg h10] at h
  by_cases h11 : c.rssi_simulator_module = ""
  · rw [if_pos h11] at h
    exact Except.noConfusion h
  rw [if_neg h11] at h
  by_cases h12 : c.initial_position.x.getD 0 < c.margin_meters ∨
      c.initial_position.x.getD 0 >
        (c.room_dim_meters.getD ⟨none, none⟩).x.getD 0 - c.margin_meters
  · rw [if_pos h12] at h
    exact Except.noConfusion h
  rw [if_neg h12] at h
  by_cases h13 : c.initial_position.y.getD 0 < c.margin_meters ∨
      c.initial_position.y.getD 0 >
        (c.room_dim_meters.getD ⟨none, none⟩).y.getD 0 - c.margin_meters
  · rw [if_pos h13] at h
    exact Except.noConfusion h
  push_neg at h12 h13
  exact ⟨h12.1, h12.2, h13.1, h13.2⟩

/-- The `margin = 1`, room `2×2`, position `(1,1)` family of
configurations passes validation whenever the remaining fields do. -/
lemma boundary_config_construct_ok
    (dur : ℤ) (speed angle draw : ℚ) (traj rssi : String) (out : Bool)
    (hdur : 0 < dur) (hspeed : 0 < speed) (hang0 : 0 ≤ angle)
    (hang1 : angle < 360) (htraj : traj ≠ "") (hrssi : rssi ≠ "") :
    exceptOk (Config.construct
      (ConfigDict.mk (some dur) (some ⟨some 2, some 2⟩) (some 1)
        (some ⟨some 1, some 1⟩) (some speed) (some angle) (some out)
        (some ⟨some traj, none, some rssi, none⟩)) draw) = true := by
  simp only [Config.construct, Config.extract_config_parameters,
    Config.validate_config, Option.getD_some]
  rw [if_neg (not_le.2 hdur)]
  rw [if_neg (show ¬(some (⟨some 2, some 2⟩ : PyDictXY) = none) by simp)]
  rw [if_neg (show ¬((some (2:ℚ)) = none ∨ (some (2:ℚ)) = none) by simp)]
  rw [if_neg (show ¬((2:ℚ) ≤ 0 ∨ (2:ℚ) ≤ 0) by norm_num)]
  rw [if_neg (show ¬((1:ℚ) < 0) by norm_num)]
  rw [if_neg (show ¬((some (1:ℚ)) = none ∨ (some (1:ℚ)) = none) by simp)]
  rw [if_neg (show ¬((1:ℚ) < 0 ∨ (1:ℚ) < 0) by norm_num)]
  rw [if_neg (not_le.2 hspeed)]
  rw [if_neg (show ¬(angle < 0 ∨ 360 ≤ angle) by
    push_neg; exact ⟨hang0, hang1⟩)]
  rw [if_neg htraj]
  rw [if_neg hrssi]
  rw [if_neg (show ¬((1:ℚ) < 1 ∨ (1:ℚ) > 2 - 1) by norm_num)]
  rw [if_neg (show ¬((1:ℚ) < 1 ∨ (1:ℚ) > 2 - 1) by norm_num)]
  rfl

/-- C4 counterexample: with `margin_meters = 1` and
`room_dim_meters = {x:2, y:2}` we have `2·margin ≥ room_dim_meters.x`,
yet `initial_position = {x:1, y:1}` passes validation — so the claim's
`≥` threshold is wrong (construction only always fails for strict `>`). -/
theorem degenerate_claim_counterexample :
    2 * (ConfigDict.mk (some 60) (some ⟨some 2, some 2⟩) (some 1)
        (some ⟨some 1, some 1⟩) (some (1/2)) (some 0) (some true)
        (some ⟨some "dummy", none, some "rssilog", none⟩)).margin_meters.getD
        0 ≥
      ((ConfigDict.mk (some 60) (some ⟨some 2, some 2⟩) (some 1)
        (some ⟨some 1, some 1⟩) (some (1/2)) (some 0) (some true)
        (some ⟨some "dummy", none, some "rssilog", none⟩)).room_dim_meters.getD
        ⟨none, none⟩).x.getD 0 ∧
    exceptOk (Config.construct
      (ConfigDict.mk (some 60) (some ⟨some 2, some 2⟩) (some 1)
        (some ⟨some 1, some 1⟩) (some (1/2)) (some 0) (some true)
        (some ⟨some "dummy", none, some "rssilog", none⟩)) 0) = true :=
  ⟨by norm_num [Option.getD_some],
    boundary_config_construct_ok 60 (1/2) 0 0 "dummy" "rssilog" true
      (by norm_num) (by norm_num) le_rfl (by norm_num) (by decide)
      (by decide)⟩

/-- C4 (amended): when `2·margin_meters` is strictly greater than the
room's `x` dimension (or symmetrically its `y` dimension), no
configuration passes validation, whatever `initial_position` holds:
`Config` construction fails for every choice of initial position. -/
theorem degenerate_playfield_no_valid_position
    (d : ConfigDict) (draw : ℚ)
    (hdeg : 2 * d.margin_meters.getD 0 >
        (d.room_dim_meters.getD ⟨none, none⟩).x.getD 0 ∨
      2 * d.margin_meters.getD 0 >
        (d.room_dim_meters.getD ⟨none, none⟩).y.getD 0) :
    exceptOk (Config.construct d draw) = false := by
  cases hcon : Config.construct d draw with
  | error e => rfl
  | ok c =>
    exfalso
    have hval0 := hcon
    simp only [Config.construct] at hval0
    rcases hval : Config.validate_config
        (Config.extract_config_parameters d draw) with s | u
    · rw [hval] at hval0
      simp [Except.map] at hval0
    · cases u
      have hb := validate_ok_bounds _ hval
      simp only [Config.extract_config_parameters] at hb
      rcases hdeg with hd | hd
      · obtain ⟨b1, b2, -, -⟩ := hb
        linarith
      · obtain ⟨-, -, b3, b4⟩ := hb
        linarith

/-- Witness for C4 (amended) at `margin = 1.1`, room `2×2`. -/
theorem degenerate_playfield_no_valid_position_witness :
    (2 * ((ConfigDict.mk (some 60) (some ⟨some 2, some 2⟩) (some (11/10))
        (some ⟨some 1, some 1⟩) (some (1/2)) (some 0) (some true)
        (some ⟨some "dummy", none, some "rssilog",
          none⟩)).margin_meters.getD 0 : ℚ) >
      ((ConfigDict.mk (some 60) (some ⟨some 2, some 2⟩) (some (11/10))
        (some ⟨some 1, some 1⟩) (some (1/2)) (some 0) (some true)
        (some ⟨some "dummy", none, some "rssilog",
          none⟩)).room_dim_meters.getD ⟨none, none⟩).x.getD 0) ∧
    exceptOk (Config.construct
      (ConfigDict.mk (some 60) (some ⟨some 2, some 2⟩) (some (11/10))
        (some ⟨some 1, some 1⟩) (some (1/2)) (some 0) (some true)
        (some ⟨some "dummy", none, some "rssilog", none⟩)) 0) = false :=
  ⟨by norm_num [Option.getD_some],
    degenerate_playfield_no_valid_position
      (ConfigDict.mk (some 60) (some ⟨some 2, some 2⟩) (some (11/10))
        (some ⟨some 1, some 1⟩) (some (1/2)) (some 0) (some true)
        (some ⟨some "dummy", none, some "rssilog", none⟩)) 0
      (Or.inl (by norm_num [Option.getD_some]))⟩

/-- C5: with `margin_meters = 1`, `room_dim_meters = {x:2,y:2}` and
`initial_position = {x:1,y:1}`, any configuration whose remaining
required fields are valid passes validation: the comparison against the
margin-shrunk playfield is inclusive at the boundary. -/
theorem config_margin_boundary_accepted
    (dur : ℤ) (speed angle draw : ℚ) (traj rssi : String) (out : Bool)
    (hdur : 0 < dur) (hspeed : 0 < speed) (hang0 : 0 ≤ angle)
    (hang1 : angle < 360) (htraj : traj ≠ "") (hrssi : rssi ≠ "") :
    exceptOk (Config.construct
      (ConfigDict.mk (some dur) (some ⟨some 2, some 2⟩) (some 1)
        (some ⟨some 1, some 1⟩) (some speed) (some angle) (some out)
        (some ⟨some traj, none, some rssi, none⟩)) draw) = true :=
  boundary_config_construct_ok dur speed angle draw traj rssi out hdur
    hspeed hang0 hang1 htraj hrssi

/-- Witness for C5 with concrete valid remaining fields. -/
theorem config_margin_boundary_accepted_witness :
    ((0 : ℤ) < 60 ∧ (0 : ℚ) < 1/2 ∧ (0 : ℚ) ≤ 0 ∧ (0 : ℚ) < 360 ∧
      "dummy" ≠ "" ∧ "rssilog" ≠ "") ∧
    exceptOk (Config.construct
      (ConfigDict.mk (some 60) (some ⟨some 2, some 2⟩) (some 1)
        (some ⟨some 1, some 1⟩) (some (1/2)) (some 0) (some true)
        (some ⟨some "dummy", none, some "rssilog", none⟩)) 0) = true :=
  ⟨⟨by norm_num, by norm_num, le_rfl, by norm_num, by decide, by decide⟩,
    config_margin_boundary_accepted 60 (1/2) 0 0 "dummy" "rssilog" true
      (by norm_num) (by norm_num) le_rfl (by norm_num) (by decide)
      (by decide)⟩

/-- C6 counterexample: a dictionary missing `room_dim_meters` but
carrying `simulation_duration_seconds = 0` fails with the duration
message, not one attributing the room-dimension invariant — the checks
are fail-fast and the duration check runs first. -/
theorem missing_room_message_counterexample :
    (ConfigDict.mk (some 0) none none none none none none
      none).room_dim_meters = none ∧
    Config.construct (ConfigDict.mk (some 0) none none none none none none
      none) 0 = Except.error "Simulation duration must be greater than 0." ∧
    "Simulation duration must be greater than 0." ≠
      "Room dimensions must be provided." :=
  ⟨rfl, rfl, by decide⟩

/-- C6 (amended): every configuration dictionary missing
`room_dim_meters` fails construction; and whenever the (defaulted)
duration check preceding it passes, the surfaced message is the one
attributing the room-dimension invariant. -/
theorem missing_room_dims_fails (d : ConfigDict) (draw : ℚ)
    (hroom : d.room_dim_meters = none) :
    exceptOk (Config.construct d draw) = false ∧
    (0 < d.simulation_duration_seconds.getD 60 →
      Config.construct d draw =
        Except.error "Room dimensions must be provided.") := by
  constructor
  · simp only [Config.construct, Config.extract_config_parameters,
      Config.validate_config, hroom]
    by_cases h1 : d.simulation_duration_seconds.getD 60 ≤ 0
    · rw [if_pos h1]
      rfl
    · rw [if_neg h1]
      rfl
  · intro hdur
    simp only [Config.construct, Config.extract_config_parameters,
      Config.validate_config, hroom]
    rw [if_neg (not_le.2 hdur)]
    rfl

/-- Witness for C6 (amended) on the all-absent dictionary. -/
theorem missing_room_dims_fails_witness :
    exceptOk (Config.construct
      (ConfigDict.mk none none none none none none none none) 0) = false ∧
    Config.construct (ConfigDict.mk none none none none none none none
      none) 0 = Except.error "Room dimensions must be provided." :=
  ⟨(missing_room_dims_fails
      (ConfigDict.mk none none none none none none none none) 0 rfl).1,
    (missing_room_dims_fails
      (ConfigDict.mk none none none none none none none none) 0 rfl).2
      (by decide)⟩

/-- C7: the factory returns a `DummyPositionModule` instance for
`"dummy"` and a default-constructed `DanisCemgil2017Custom` instance for
`"daniscemgil2017custom"` (both with empty parameters), and raises a
`ValueError` naming the simulator for every string outside the registered
set `{"dummy", "daniscemgil2017", "daniscemgil2017custom"}`. -/
theorem factory_create_models
    (simulator_name : String) (constructor_params : List (String × ℚ))
    (h1 : simulator_name ≠ "dummy")
    (h2 : simulator_name ≠ "daniscemgil2017")
    (h3 : simulator_name ≠ "daniscemgil2017custom") :
    TrajectoryFactory.create_trajectory_simulator "dummy" [] =
      Except.ok (TrajectorySimulator.dummy ⟨⟩) ∧
    TrajectoryFactory.create_trajectory_simulator "daniscemgil2017custom"
      [] = Except.ok (TrajectorySimulator.daniscemgil2017custom
        (DanisCemgil2017Custom.init 300 0.07)) ∧
    TrajectoryFactory.create_trajectory_simulator simulator_name
      constructor_params =
      Except.error ("Trajectory simulator " ++ simulator_name ++
        " not available.") := by
  refine ⟨rfl, rfl, ?_⟩
  simp only [TrajectoryFactory.create_trajectory_simulator]
  rw [if_neg h1, if_neg h2, if_neg h3]

/-- Witness for C7 at the unregistered name `"nonexistent"`. -/
theorem factory_create_models_witness :
    ("nonexistent" ≠ "dummy" ∧ "nonexistent" ≠ "daniscemgil2017" ∧
      "nonexistent" ≠ "daniscemgil2017custom") ∧
    (TrajectoryFactory.create_trajectory_simulator "dummy" [] =
      Except.ok (TrajectorySimulator.dummy ⟨⟩) ∧
    TrajectoryFactory.create_trajectory_simulator "daniscemgil2017custom"
      [] = Except.ok (TrajectorySimulator.daniscemgil2017custom
        (DanisCemgil2017Custom.init 300 0.07)) ∧
    TrajectoryFactory.create_trajectory_simulator "nonexistent" [] =
      Except.error ("Trajectory simulator " ++ "nonexistent" ++
        " not available.")) :=
  ⟨⟨by decide, by decide, by decide⟩,
    factory_create_models "nonexistent" [] (by decide) (by decide)
      (by decide)⟩
